import Mathlib

/-!
Verification of the Backtest Experiment Manager (src/app.py) against its
natural-language specification.

The program state and the operations the claims speak about are embedded
shallowly: Python float progress values are modelled as rationals (every value
the program writes is an exact multiple of 1/100), the external subprocess is
modelled by its observable outcome, and an exception escaping a Python
function is modelled as the error branch of an Except value.
-/

namespace App

/-- TaskStatus enumeration (src/app.py lines 10-14). -/
inductive TaskStatus where
  | notStarted
  | inProgress
  | completed
  | failed
  deriving DecidableEq, Repr

/-- ExperimentTask dataclass (src/app.py lines 16-20): name, status, and a
progress field that defaults to 0.0. -/
structure ExperimentTask where
  name : String
  status : TaskStatus
  progress : ℚ
  deriving DecidableEq, Repr

/-- Stage kinds: the three pipeline steps, one per BacktestManager method. -/
inductive StageKind where
  | check
  | batch
  | summarize
  deriving DecidableEq, Repr

/-- Outcome of the external process started by subprocess.run with check=True:
exit code zero; a non-zero exit (subprocess.run raises CalledProcessError
carrying the captured stderr); or a spawn failure, meaning the executable
could not be launched at all (subprocess.run raises FileNotFoundError or
OSError before any process runs). -/
inductive ProcOutcome where
  | success
  | nonZeroExit (stderr : String)
  | spawnFailure (msg : String)
  deriving DecidableEq, Repr

/-- Observable behaviour of one stage-runner call: the argument vector handed
to subprocess.run, the result (Except.ok b models the Python function
returning the boolean b; Except.error m models an exception escaping the
function uncaught), and the text passed to st.error, if any. -/
structure StageRunOut where
  argv : List String
  result : Except String Bool
  displayed : Option String

/-- BacktestManager.run_check (src/app.py lines 32-47): builds the argument
vector for check_experiment.py, returns True on exit code zero; on
CalledProcessError shows "Check failed: " followed by the captured stderr via
st.error and returns False; any other exception — in particular a spawn
failure — is not caught and escapes the function. -/
def run_check (experiment_type univ product : String) (o : ProcOutcome) :
    StageRunOut :=
  { argv := ["python", "check_experiment.py",
      "--experiment", experiment_type,
      "--universe", univ,
      "--product", product]
    result := match o with
      | ProcOutcome.success => Except.ok true
      | ProcOutcome.nonZeroExit _ => Except.ok false
      | ProcOutcome.spawnFailure m => Except.error m
    displayed := match o with
      | ProcOutcome.nonZeroExit s => some ("Check failed: " ++ s)
      | _ => none }

/-- BacktestManager.run_batch (src/app.py lines 49-64): same shape as
run_check, with run_batch.py and the message text "Batch run failed: ". -/
def run_batch (experiment_type univ product : String) (o : ProcOutcome) :
    StageRunOut :=
  { argv := ["python", "run_batch.py",
      "--experiment", experiment_type,
      "--universe", univ,
      "--product", product]
    result := match o with
      | ProcOutcome.success => Except.ok true
      | ProcOutcome.nonZeroExit _ => Except.ok false
      | ProcOutcome.spawnFailure m => Except.error m
    displayed := match o with
      | ProcOutcome.nonZeroExit s => some ("Batch run failed: " ++ s)
      | _ => none }

/-- BacktestManager.summarize (src/app.py lines 66-81): same shape as
run_check, with summarize.py and the message text
"Summary generation failed: ". -/
def summarize (experiment_type univ product : String) (o : ProcOutcome) :
    StageRunOut :=
  { argv := ["python", "summarize.py",
      "--experiment", experiment_type,
      "--universe", univ,
      "--product", product]
    result := match o with
      | ProcOutcome.success => Except.ok true
      | ProcOutcome.nonZeroExit _ => Except.ok false
      | ProcOutcome.spawnFailure m => Except.error m
    displayed := match o with
      | ProcOutcome.nonZeroExit s => some ("Summary generation failed: " ++ s)
      | _ => none }

/-- Dispatch from a stage kind to the BacktestManager method the matching
button handler calls (lines 135, 153, 171). -/
def runnerFor : StageKind → String → String → String → ProcOutcome → StageRunOut
  | StageKind.check => run_check
  | StageKind.batch => run_batch
  | StageKind.summarize => summarize

/-- check_key (src/app.py line 111): the registry key is the f-string join of
the three identity fields and the stage suffix with underscores. -/
def check_key (exp_type univ product : String) : String :=
  exp_type ++ "_" ++ univ ++ "_" ++ product ++ "_check"

/-- batch_key (src/app.py line 112). -/
def batch_key (exp_type univ product : String) : String :=
  exp_type ++ "_" ++ univ ++ "_" ++ product ++ "_batch"

/-- summary_key (src/app.py line 113). -/
def summary_key (exp_type univ product : String) : String :=
  exp_type ++ "_" ++ univ ++ "_" ++ product ++ "_summary"

/-- The session task dictionary st.session_state.tasks, as an
insertion-ordered association list (Python dicts preserve insertion order). -/
abbrev TaskDict := List (String × ExperimentTask)

/-- Dictionary lookup over the association list. -/
def lookupTask : TaskDict → String → Option ExperimentTask
  | [], _ => none
  | (k, t) :: rest, key => if k = key then some t else lookupTask rest key

/-- Task initialization (src/app.py lines 116-121): if key is not in the
tasks dict, store a fresh ExperimentTask with status NOT_STARTED and the
default progress 0.0; otherwise leave the dict untouched. -/
def ensureTask (tasks : TaskDict) (key : String) : TaskDict :=
  match lookupTask tasks key with
  | some _ => tasks
  | none =>
      tasks ++ [(key, { name := key, status := TaskStatus.notStarted, progress := 0 })]

/-- Frontier-point parameter list at a catalog leaf; opaque to the core and
never examined by the code under verification. -/
abbrev FrontierPoints := List String

/-- Products level of the catalog: product name to frontier points. -/
abbrev Products := List (String × FrontierPoints)

/-- Universes level of the catalog: universe name to products. -/
abbrev Universes := List (String × Products)

/-- The nested experiment catalog: experiment type to universes. -/
abbrev Catalog := List (String × Universes)

/-- The two ways loading the catalog fails; the spec collectively names them
ConfigError. -/
inductive ConfigError where
  | missingFile
  | malformed
  deriving DecidableEq, Repr

/-- BacktestManager.load_experiments (src/app.py lines 27-30). The catalog
source is modelled by what the two fallible steps see: none means the config
file is absent (open raises FileNotFoundError); some none means the file
exists but does not parse (json.load raises JSONDecodeError); some (some c)
means the file parses to the nested mapping c. Either exception propagates
out of the constructor, modelled as the error branch. -/
def load_experiments : Option (Option Catalog) → Except ConfigError Catalog
  | none => Except.error ConfigError.missingFile
  | some none => Except.error ConfigError.malformed
  | some (some c) => Except.ok c

/-- The task-creation sweep of create_experiment_ui (src/app.py lines
100-121): walk the nested catalog in insertion order and ensure the three
stage tasks exist for every (experiment type, universe, product) leaf. -/
def buildTasks (cat : Catalog) (tasks : TaskDict) : TaskDict :=
  cat.foldl
    (fun acc eT =>
      eT.2.foldl
        (fun acc2 uP =>
          uP.2.foldl
            (fun acc3 pF =>
              ensureTask
                (ensureTask (ensureTask acc3 (check_key eT.1 uP.1 pF.1))
                  (batch_key eT.1 uP.1 pF.1))
                (summary_key eT.1 uP.1 pF.1))
            acc2)
        acc)
    tasks

/-- Start-up of create_experiment_ui (src/app.py lines 89-121): the tasks
dict starts empty (lines 93-94); BacktestManager loads the catalog (line 97,
via its constructor at line 25) strictly before any task is created; a load
failure propagates out, so the dict is still empty. The result pairs the
tasks dict with the propagated error, if any. -/
def create_experiment_ui (src : Option (Option Catalog)) :
    TaskDict × Option ConfigError :=
  match load_experiments src with
  | Except.error e => ([], some e)
  | Except.ok cat => (buildTasks cat [], none)

/-- Direct status assignment, the only status mutation in the source
(task.status = ... at src/app.py lines 127, 136, 145, 154, 163, 172).
No guard, no error path: any assignment is performed. -/
def setStatus (t : ExperimentTask) (s : TaskStatus) : ExperimentTask :=
  { t with status := s }

/-- The progress values the ramp loop writes (src/app.py lines 130-133):
task.progress = (i + 1) / 100 for i = 0, ..., 99. -/
def rampTrace : List ℚ :=
  (List.range 100).map (fun (i : ℕ) => ((i : ℚ) + 1) / 100)

/-- Effect of the ramp loop on the task record: each iteration overwrites the
progress field with the next value of rampTrace. -/
def runRamp (t : ExperimentTask) : ExperimentTask :=
  rampTrace.foldl (fun acc v => { acc with progress := v }) t

/-- Everything observable about one button-click handler execution.
onEnter is the task state right after the IN_PROGRESS assignment; preFinal is
the state right before the final status assignment (after the ramp, when the
stage runner has returned); task is the state when the handler ends, normally
or by an escaping exception; ramp lists the progress values written during
the ramp; statusTrace lists the statuses assigned, in order; displayed is the
st.error text, if any; uncaught is the exception escaping the handler, if
any. -/
structure ClickResult where
  onEnter : ExperimentTask
  preFinal : ExperimentTask
  task : ExperimentTask
  ramp : List ℚ
  statusTrace : List TaskStatus
  displayed : Option String
  uncaught : Option String

/-- One button-click handler (CHECK: src/app.py lines 125-137; RUN ON BATCH:
143-155; SUMMARIZE: 161-173; the three are identical up to the stage runner):
assign IN_PROGRESS, run the 100-step ramp, call the stage runner, and assign
COMPLETED or FAILED from its boolean result. An exception escaping the runner
aborts the handler before the final assignment, leaving the task exactly as
the ramp left it. -/
def runClick (k : StageKind) (experiment_type univ product : String)
    (t : ExperimentTask) (o : ProcOutcome) : ClickResult :=
  match (runnerFor k experiment_type univ product o).result with
  | Except.ok true =>
      { onEnter := setStatus t TaskStatus.inProgress
        preFinal := runRamp (setStatus t TaskStatus.inProgress)
        task := setStatus (runRamp (setStatus t TaskStatus.inProgress))
          TaskStatus.completed
        ramp := rampTrace
        statusTrace := [TaskStatus.inProgress, TaskStatus.completed]
        displayed := (runnerFor k experiment_type univ product o).displayed
        uncaught := none }
  | Except.ok false =>
      { onEnter := setStatus t TaskStatus.inProgress
        preFinal := runRamp (setStatus t TaskStatus.inProgress)
        task := setStatus (runRamp (setStatus t TaskStatus.inProgress))
          TaskStatus.failed
        ramp := rampTrace
        statusTrace := [TaskStatus.inProgress, TaskStatus.failed]
        displayed := (runnerFor k experiment_type univ product o).displayed
        uncaught := none }
  | Except.error m =>
      { onEnter := setStatus t TaskStatus.inProgress
        preFinal := runRamp (setStatus t TaskStatus.inProgress)
        task := runRamp (setStatus t TaskStatus.inProgress)
        ramp := rampTrace
        statusTrace := [TaskStatus.inProgress]
        displayed := (runnerFor k experiment_type univ product o).displayed
        uncaught := some m }

/-- Modelled from the spec: the legal status-transition set of section 4.3.
No transition guard and no InvalidTransitionError exist anywhere in
src/app.py; this predicate only states which transitions the spec calls
legal, so that illegality of a concrete transition can be expressed. -/
def legalTransition : TaskStatus → TaskStatus → Bool
  | TaskStatus.notStarted, TaskStatus.inProgress => true
  | TaskStatus.inProgress, TaskStatus.completed => true
  | TaskStatus.inProgress, TaskStatus.failed => true
  | TaskStatus.completed, TaskStatus.inProgress => true
  | TaskStatus.failed, TaskStatus.inProgress => true
  | _, _ => false

/-- Script name per stage kind, the datum distinguishing the three argument
vectors. -/
def scriptName : StageKind → String
  | StageKind.check => "check_experiment.py"
  | StageKind.batch => "run_batch.py"
  | StageKind.summarize => "summarize.py"

/-- Modelled from the spec (section 4.2) as the refinement target of the
claim: one invoker parametrized by StageKind, returning the argument vector
and the success/failure result, the two observables the claim states its
extensional equality over. -/
def stageInvoke (k : StageKind) (experiment_type univ product : String)
    (o : ProcOutcome) : List String × Except String Bool :=
  (["python", scriptName k,
    "--experiment", experiment_type,
    "--universe", univ,
    "--product", product],
   match o with
   | ProcOutcome.success => Except.ok true
   | ProcOutcome.nonZeroExit _ => Except.ok false
   | ProcOutcome.spawnFailure m => Except.error m)

/-- A fold that only overwrites the progress field never changes the status
field. -/
theorem foldl_setProgress_status (l : List ℚ) (t : ExperimentTask) :
    (l.foldl (fun acc v => { acc with progress := v }) t).status = t.status := by
  induction l generalizing t with
  | nil => rfl
  | cons x xs ih => simpa using ih { t with progress := x }

/-- The ramp value list splits into its first 99 values followed by 1. -/
theorem rampTrace_eq_concat :
    rampTrace = (List.range 99).map (fun (i : ℕ) => ((i : ℚ) + 1) / 100) ++ [1] := by
  rw [rampTrace, show (100 : ℕ) = 99 + 1 from rfl, List.range_succ, List.map_append]
  norm_num

/-- The ramp leaves the task with progress exactly 1. -/
theorem runRamp_progress (t : ExperimentTask) : (runRamp t).progress = 1 := by
  rw [runRamp, rampTrace_eq_concat, List.foldl_append]
  rfl

/-- The ramp never touches the status field. -/
theorem runRamp_status (t : ExperimentTask) : (runRamp t).status = t.status := by
  rw [runRamp]
  exact foldl_setProgress_status rampTrace t

/-- The last progress value the ramp writes is 1. -/
theorem rampTrace_getLast : rampTrace.getLast? = some 1 := by
  rw [rampTrace_eq_concat]
  simp

/-- The first progress value the ramp writes is 1/100. -/
theorem rampTrace_head : rampTrace.head? = some (1 / 100) := by
  have h : (List.range 100).head? = some 0 := by decide
  rw [rampTrace, List.head?_map, h]
  norm_num

/-- The ramp writes 100 progress values. -/
theorem rampTrace_length : rampTrace.length = 100 := by
  rw [rampTrace]
  simp

/-- The ramp values are non-decreasing. -/
theorem rampTrace_pairwise : rampTrace.Pairwise (· ≤ ·) := by
  rw [rampTrace, List.pairwise_map]
  refine (List.pairwise_lt_range 100).imp ?_
  intro a b hab
  have ha : (a : ℚ) ≤ (b : ℚ) := by exact_mod_cast hab.le
  gcongr

/-- On any outcome, the handler enters IN_PROGRESS by direct assignment. -/
theorem runClick_onEnter (k : StageKind) (e u p : String) (t : ExperimentTask)
    (o : ProcOutcome) :
    (runClick k e u p t o).onEnter = setStatus t TaskStatus.inProgress := by
  cases k <;> cases o <;> rfl

/-- On any outcome, the state right before the final assignment is the
post-ramp state. -/
theorem runClick_preFinal (k : StageKind) (e u p : String) (t : ExperimentTask)
    (o : ProcOutcome) :
    (runClick k e u p t o).preFinal
      = runRamp (setStatus t TaskStatus.inProgress) := by
  cases k <;> cases o <;> rfl

/-- On any outcome, the progress values written are exactly the ramp values. -/
theorem runClick_ramp (k : StageKind) (e u p : String) (t : ExperimentTask)
    (o : ProcOutcome) : (runClick k e u p t o).ramp = rampTrace := by
  cases k <;> cases o <;> rfl

/-- On a zero exit, the handler ends with the final COMPLETED assignment
applied to the post-ramp state. -/
theorem runClick_success_task (k : StageKind) (e u p : String)
    (t : ExperimentTask) :
    (runClick k e u p t ProcOutcome.success).task
      = setStatus (runRamp (setStatus t TaskStatus.inProgress))
          TaskStatus.completed := by
  cases k <;> rfl

/-- On a non-zero exit, the handler ends with the final FAILED assignment
applied to the post-ramp state. -/
theorem runClick_nonZero_task (k : StageKind) (e u p s : String)
    (t : ExperimentTask) :
    (runClick k e u p t (ProcOutcome.nonZeroExit s)).task
      = setStatus (runRamp (setStatus t TaskStatus.inProgress))
          TaskStatus.failed := by
  cases k <;> rfl

/-- On a spawn failure, the handler aborts and leaves the task exactly as the
ramp left it: the final assignment never runs. -/
theorem runClick_spawn_task (k : StageKind) (e u p m : String)
    (t : ExperimentTask) :
    (runClick k e u p t (ProcOutcome.spawnFailure m)).task
      = runRamp (setStatus t TaskStatus.inProgress) := by
  cases k <;> rfl

/-- Looking up a key that is absent from the dict finds the entry appended at
the end under that key. -/
theorem lookupTask_append_self (tasks : TaskDict) (key : String)
    (t : ExperimentTask) (h : lookupTask tasks key = none) :
    lookupTask (tasks ++ [(key, t)]) key = some t := by
  induction tasks with
  | nil => simp [lookupTask]
  | cons hd rest ih =>
      obtain ⟨k0, t0⟩ := hd
      simp only [List.cons_append, lookupTask] at h ⊢
      by_cases hk : k0 = key
      · simp [hk] at h
      · simp only [hk, if_false] at h ⊢
        exact ih h

/-- Claim C1: on a click, if the stage invocation runs and succeeds the final
status is Completed, if it runs and fails the final status is Failed; in both
cases the final assignment is applied to the post-ramp state whose progress
is exactly 1, the status at that point still being InProgress; and the
progress values written during the ramp form a non-decreasing sequence whose
last value is 1. -/
theorem claim_C1 (k : StageKind) (e u p : String) (t : ExperimentTask)
    (o : ProcOutcome) (s : String) :
    (runClick k e u p t ProcOutcome.success).task.status = TaskStatus.completed
    ∧ (runClick k e u p t (ProcOutcome.nonZeroExit s)).task.status
        = TaskStatus.failed
    ∧ (runClick k e u p t ProcOutcome.success).task
        = setStatus (runClick k e u p t ProcOutcome.success).preFinal
            TaskStatus.completed
    ∧ (runClick k e u p t (ProcOutcome.nonZeroExit s)).task
        = setStatus (runClick k e u p t (ProcOutcome.nonZeroExit s)).preFinal
            TaskStatus.failed
    ∧ (runClick k e u p t o).preFinal.progress = 1
    ∧ (runClick k e u p t o).preFinal.status = TaskStatus.inProgress
    ∧ (runClick k e u p t o).ramp.Pairwise (· ≤ ·)
    ∧ (runClick k e u p t o).ramp.getLast? = some 1 := by
  refine ⟨?_, ?_, ?_, ?_, ?_, ?_, ?_, ?_⟩
  · rw [runClick_success_task]
    rfl
  · rw [runClick_nonZero_task]
    rfl
  · rw [runClick_success_task, runClick_preFinal]
  · rw [runClick_nonZero_task, runClick_preFinal]
  · rw [runClick_preFinal]
    exact runRamp_progress _
  · rw [runClick_preFinal, runRamp_status]
    rfl
  · rw [runClick_ramp]
    exact rampTrace_pairwise
  · rw [runClick_ramp]
    exact rampTrace_getLast

/-- Claim C2 counterexample: the source mutates status by unguarded direct
assignment; applied to the illegal transition NotStarted to Completed, the
assignment is carried out (the prior status does not survive) and no
InvalidTransitionError exists to reject it. -/
theorem claim_C2_counterexample :
    legalTransition TaskStatus.notStarted TaskStatus.completed = false
    ∧ (setStatus
        { name := "k", status := TaskStatus.notStarted, progress := 0 }
        TaskStatus.completed).status = TaskStatus.completed
    ∧ TaskStatus.completed ≠ TaskStatus.notStarted := by
  refine ⟨rfl, rfl, ?_⟩
  decide

/-- Claim C2 (amended): the source has no transition guard and no
InvalidTransitionError — status is changed by plain assignment, which accepts
any transition; but in every handler execution the statuses assigned are
either InProgress alone (aborted run) or InProgress immediately followed by
Completed or by Failed, so no task ever reaches Completed or Failed without
passing through InProgress. -/
theorem claim_C2_amended (k : StageKind) (e u p : String) (t : ExperimentTask)
    (o : ProcOutcome) :
    (runClick k e u p t o).statusTrace
      ∈ [[TaskStatus.inProgress, TaskStatus.completed],
         [TaskStatus.inProgress, TaskStatus.failed],
         [TaskStatus.inProgress]] := by
  cases k <;> cases o <;> simp [runClick, runnerFor, run_check, run_batch, summarize]

/-- Claim C3 counterexample: when the Check executable cannot be spawned, the
exception escapes the click handler uncaught and the task is left InProgress,
not Failed. -/
theorem claim_C3_counterexample :
    (runClick StageKind.check "meanrev" "equities" "ES"
        { name := "meanrev_equities_ES_check", status := TaskStatus.notStarted,
          progress := 0 }
        (ProcOutcome.spawnFailure "No such file or directory")).uncaught
      = some "No such file or directory"
    ∧ (runClick StageKind.check "meanrev" "equities" "ES"
        { name := "meanrev_equities_ES_check", status := TaskStatus.notStarted,
          progress := 0 }
        (ProcOutcome.spawnFailure "No such file or directory")).task.status
      ≠ TaskStatus.failed := by
  refine ⟨rfl, ?_⟩
  rw [runClick_spawn_task, runRamp_status]
  decide

/-- Claim C3 (amended): a non-zero exit is captured as data — the runner
returns False, the handler records Failed, nothing escapes; but a spawn
failure is not caught (only CalledProcessError is): the exception escapes the
orchestrator boundary, the final assignment never runs, and the task is left
InProgress, so the source draws no SpawnFailure versus NonZeroExit
distinction at the task level. -/
theorem claim_C3_amended (k : StageKind) (e u p : String) (t : ExperimentTask)
    (s m : String) :
    (runnerFor k e u p (ProcOutcome.nonZeroExit s)).result = Except.ok false
    ∧ (runClick k e u p t (ProcOutcome.nonZeroExit s)).task.status
        = TaskStatus.failed
    ∧ (runClick k e u p t (ProcOutcome.nonZeroExit s)).uncaught = none
    ∧ (runnerFor k e u p (ProcOutcome.spawnFailure m)).result = Except.error m
    ∧ (runClick k e u p t (ProcOutcome.spawnFailure m)).uncaught = some m
    ∧ (runClick k e u p t (ProcOutcome.spawnFailure m)).task.status
        = TaskStatus.inProgress := by
  refine ⟨?_, ?_, ?_, ?_, ?_, ?_⟩
  · cases k <;> rfl
  · rw [runClick_nonZero_task]
    rfl
  · cases k <;> rfl
  · cases k <;> rfl
  · cases k <;> rfl
  · rw [runClick_spawn_task, runRamp_status]
    rfl

/-- Claim C4 (key collision): the registry key is the underscore join of the
identity fields, so the two distinct identities (exp "a_b", universe "c",
product "d") and (exp "a", universe "b_c", product "d") map to the same key
"a_b_c_d_check" and hence share one task record. -/
theorem claim_C4_collision :
    check_key "a_b" "c" "d" = check_key "a" "b_c" "d"
    ∧ (("a_b", "c", "d") : String × String × String) ≠ ("a", "b_c", "d") := by
  refine ⟨rfl, ?_⟩
  decide

/-- Claim C5 counterexample: a click on a task whose status is already
InProgress is not rejected — no TaskBusyError exists — and a full new
execution runs: the ramp writes its 100 values, nothing is raised, and the
final status is recorded from the new outcome. -/
theorem claim_C5_counterexample :
    (runClick StageKind.check "meanrev" "equities" "ES"
        { name := "meanrev_equities_ES_check", status := TaskStatus.inProgress,
          progress := 1 / 2 }
        ProcOutcome.success).uncaught = none
    ∧ (runClick StageKind.check "meanrev" "equities" "ES"
        { name := "meanrev_equities_ES_check", status := TaskStatus.inProgress,
          progress := 1 / 2 }
        ProcOutcome.success).ramp.length = 100
    ∧ (runClick StageKind.check "meanrev" "equities" "ES"
        { name := "meanrev_equities_ES_check", status := TaskStatus.inProgress,
          progress := 1 / 2 }
        ProcOutcome.success).task.status = TaskStatus.completed := by
  refine ⟨rfl, ?_, ?_⟩
  · rw [runClick_ramp]
    exact rampTrace_length
  · rw [runClick_success_task]
    rfl

/-- Claim C5 (amended): a run on an identity whose task is InProgress is not
rejected — the source has no TaskBusyError; the handler re-enters InProgress,
runs the ramp and the stage, and overwrites the task state with the new
outcome. (In the source, overlap of two runs cannot arise, because each
handler blocks the single-threaded session script; a task is only observable
as InProgress at click time when a previous run was aborted by an uncaught
spawn exception.) -/
theorem claim_C5_amended (k : StageKind) (e u p n : String) (prog : ℚ)
    (s : String) :
    (runClick k e u p
        { name := n, status := TaskStatus.inProgress, progress := prog }
        ProcOutcome.success).uncaught = none
    ∧ (runClick k e u p
        { name := n, status := TaskStatus.inProgress, progress := prog }
        ProcOutcome.success).ramp.length = 100
    ∧ (runClick k e u p
        { name := n, status := TaskStatus.inProgress, progress := prog }
        ProcOutcome.success).task.status = TaskStatus.completed
    ∧ (runClick k e u p
        { name := n, status := TaskStatus.inProgress, progress := prog }
        (ProcOutcome.nonZeroExit s)).task.status = TaskStatus.failed := by
  refine ⟨?_, ?_, ?_, ?_⟩
  · cases k <;> rfl
  · rw [runClick_ramp]
    exact rampTrace_length
  · rw [runClick_success_task]
    rfl
  · rw [runClick_nonZero_task]
    rfl

/-- Claim C6: task creation is idempotent — looking the key up after
ensureTask yields the pre-existing entry when there was one and a fresh task
with status NotStarted and progress 0 otherwise, and a second ensureTask with
the same key is the identity, so nothing is replaced or reset. -/
theorem claim_C6 (tasks : TaskDict) (key : String) :
    lookupTask (ensureTask tasks key) key
      = some ((lookupTask tasks key).getD
          { name := key, status := TaskStatus.notStarted, progress := 0 })
    ∧ ensureTask (ensureTask tasks key) key = ensureTask tasks key := by
  cases h : lookupTask tasks key with
  | some t0 =>
      constructor
      · simp [ensureTask, h]
      · simp [ensureTask, h]
  | none =>
      have hfind := lookupTask_append_self tasks key
        { name := key, status := TaskStatus.notStarted, progress := 0 } h
      constructor
      · simp only [ensureTask, h]
        simpa using hfind
      · simp only [ensureTask, h, hfind]

/-- Claim C7 counterexample: re-running a Completed task whose progress is 1
does not reset progress to 0 on entry to InProgress — right after the
IN_PROGRESS assignment the progress still holds its prior value 1. -/
theorem claim_C7_counterexample :
    (runClick StageKind.check "meanrev" "equities" "ES"
        { name := "meanrev_equities_ES_check", status := TaskStatus.completed,
          progress := 1 }
        ProcOutcome.success).onEnter.status = TaskStatus.inProgress
    ∧ (runClick StageKind.check "meanrev" "equities" "ES"
        { name := "meanrev_equities_ES_check", status := TaskStatus.completed,
          progress := 1 }
        ProcOutcome.success).onEnter.progress = 1
    ∧ (1 : ℚ) ≠ 0 := by
  refine ⟨rfl, rfl, ?_⟩
  norm_num

/-- Claim C7 (amended): a run on a Completed task, and equally on a Failed
task, is allowed and the full cycle re-executes — entry to InProgress, the
100-step ramp, the stage call, and the final status from its outcome; but
progress is not reset to 0 on entry to InProgress: it keeps its prior value
until the first ramp step overwrites it with 1/100, and reaches 1 again
before the final assignment. -/
theorem claim_C7_amended (k : StageKind) (e u p n : String) (prog : ℚ)
    (s : String) (o : ProcOutcome) :
    (runClick k e u p
        { name := n, status := TaskStatus.completed, progress := prog }
        o).onEnter.status = TaskStatus.inProgress
    ∧ (runClick k e u p
        { name := n, status := TaskStatus.completed, progress := prog }
        o).onEnter.progress = prog
    ∧ (runClick k e u p
        { name := n, status := TaskStatus.completed, progress := prog }
        o).ramp.head? = some (1 / 100)
    ∧ (runClick k e u p
        { name := n, status := TaskStatus.completed, progress := prog }
        o).preFinal.progress = 1
    ∧ (runClick k e u p
        { name := n, status := TaskStatus.completed, progress := prog }
        ProcOutcome.success).task.status = TaskStatus.completed
    ∧ (runClick k e u p
        { name := n, status := TaskStatus.completed, progress := prog }
        (ProcOutcome.nonZeroExit s)).task.status = TaskStatus.failed
    ∧ (runClick k e u p
        { name := n, status := TaskStatus.failed, progress := prog }
        o).onEnter.status = TaskStatus.inProgress
    ∧ (runClick k e u p
        { name := n, status := TaskStatus.failed, progress := prog }
        o).onEnter.progress = prog
    ∧ (runClick k e u p
        { name := n, status := TaskStatus.failed, progress := prog }
        o).ramp.head? = some (1 / 100)
    ∧ (runClick k e u p
        { name := n, status := TaskStatus.failed, progress := prog }
        o).preFinal.progress = 1
    ∧ (runClick k e u p
        { name := n, status := TaskStatus.failed, progress := prog }
        ProcOutcome.success).task.status = TaskStatus.completed
    ∧ (runClick k e u p
        { name := n, status := TaskStatus.failed, progress := prog }
        (ProcOutcome.nonZeroExit s)).task.status = TaskStatus.failed := by
  refine ⟨?_, ?_, ?_, ?_, ?_, ?_, ?_, ?_, ?_, ?_, ?_, ?_⟩
  · rw [runClick_onEnter]
    rfl
  · rw [runClick_onEnter]
    rfl
  · rw [runClick_ramp]
    exact rampTrace_head
  · rw [runClick_preFinal]
    exact runRamp_progress _
  · rw [runClick_success_task]
    rfl
  · rw [runClick_nonZero_task]
    rfl
  · rw [runClick_onEnter]
    rfl
  · rw [runClick_onEnter]
    rfl
  · rw [runClick_ramp]
    exact rampTrace_head
  · rw [runClick_preFinal]
    exact runRamp_progress _
  · rw [runClick_success_task]
    rfl
  · rw [runClick_nonZero_task]
    rfl

/-- Claim C8 counterexample: when the Check executable exits 1 with stderr
"bad universe", the final status is Failed but the surfaced diagnostic text
is "Check failed: bad universe", not the verbatim stderr "bad universe". -/
theorem claim_C8_counterexample :
    (runClick StageKind.check "meanrev" "equities" "ES"
        { name := "meanrev_equities_ES_check", status := TaskStatus.notStarted,
          progress := 0 }
        (ProcOutcome.nonZeroExit "bad universe")).displayed
      = some "Check failed: bad universe"
    ∧ (runClick StageKind.check "meanrev" "equities" "ES"
        { name := "meanrev_equities_ES_check", status := TaskStatus.notStarted,
          progress := 0 }
        (ProcOutcome.nonZeroExit "bad universe")).displayed
      ≠ some "bad universe"
    ∧ (runClick StageKind.check "meanrev" "equities" "ES"
        { name := "meanrev_equities_ES_check", status := TaskStatus.notStarted,
          progress := 0 }
        (ProcOutcome.nonZeroExit "bad universe")).task.status
      = TaskStatus.failed := by
  refine ⟨rfl, ?_, ?_⟩
  · decide
  · rw [runClick_nonZero_task]
    rfl

/-- Claim C8 (amended): on a non-zero exit the final status is Failed for
every stage, and the surfaced diagnostic text is the captured stderr behind
the stage-specific label — "Check failed: " for Check, "Batch run failed: "
for Batch, "Summary generation failed: " for Summarize — so the stderr is
preserved inside the message but not verbatim as the whole message. -/
theorem claim_C8_amended (k : StageKind) (e u p : String) (t : ExperimentTask)
    (s : String) :
    (runClick StageKind.check e u p t (ProcOutcome.nonZeroExit s)).displayed
      = some ("Check failed: " ++ s)
    ∧ (runClick StageKind.batch e u p t (ProcOutcome.nonZeroExit s)).displayed
      = some ("Batch run failed: " ++ s)
    ∧ (runClick StageKind.summarize e u p t
        (ProcOutcome.nonZeroExit s)).displayed
      = some ("Summary generation failed: " ++ s)
    ∧ (runClick k e u p t
        (ProcOutcome.nonZeroExit s)).task.status = TaskStatus.failed := by
  refine ⟨rfl, rfl, rfl, ?_⟩
  rw [runClick_nonZero_task]
  rfl

/-- Claim C9: when the catalog source is absent or malformed, loading fails
with the corresponding ConfigError, the failure propagates out of the page
construction, and the tasks dict is still empty — no ExperimentTask was ever
created. -/
theorem claim_C9 :
    create_experiment_ui none = ([], some ConfigError.missingFile)
    ∧ create_experiment_ui (some none) = ([], some ConfigError.malformed) := by
  exact ⟨rfl, rfl⟩

/-- Claim C10: the three stage runners are extensionally equal to the single
StageKind-parametrized invoker in the two observables the claim fixes — the
argument vector (same shape, differing only in the script name) and the
success/failure result. -/
theorem claim_C10 (k : StageKind) (e u p : String) (o : ProcOutcome) :
    (runnerFor k e u p o).argv = (stageInvoke k e u p o).1
    ∧ (runnerFor k e u p o).result = (stageInvoke k e u p o).2 := by
  cases k <;> cases o <;> exact ⟨rfl, rfl⟩

end App
